import Mathlib

/-!
Shallow embedding of the STFS container decoder
(`src/bin/python/lib/stfs.py`) and proofs about its claims.

Python byte strings are modelled as `List Nat` (one entry per byte value);
Python `int` values that can be negative (the signed `pathindex` field,
table block numbers) are modelled as `Int`, all other integers as `Nat`.
Exceptions (`assert` failures, `struct.error`) are modelled with `Except`.
-/

set_option autoImplicit false

/-- Python byte strings (`bytes`) as lists of byte values. -/
abbrev Bytes := List Nat

/-- Python slicing `data[start : start + len]` for in-range nonnegative bounds
(clamping at the end of the list, as Python slices do). -/
def pySlice (data : Bytes) (start len : Nat) : Bytes :=
  (data.drop start).take len

/-- Python exceptions raised by the decoder. `assertionError` models a failed
`assert`; `indexAssertion` models the `AssertionError("IndexError: %s %d %d")`
re-raised in `parse_filetable`, carrying the offending `pathindex` and the
record count; `structError` models `struct.error` on a short unpack buffer. -/
inductive PyErr where
  | assertionError (msg : String)
  | indexAssertion (pathindex : Int) (count : Nat)
  | structError
  deriving DecidableEq, Repr

/-- Big-endian unsigned unpack (`struct.unpack(">I")`, `">H"`, `">Q"`). -/
def beUnpack (l : Bytes) : Nat :=
  l.foldl (fun acc b => acc * 256 + b) 0

/-- Little-endian unsigned unpack (`struct.unpack("<I")`, `"<H"`). -/
def leUnpack (l : Bytes) : Nat :=
  l.foldr (fun b acc => acc * 256 + b) 0

/-- Big-endian signed 16-bit unpack (`struct.unpack(">h")`), used for the
`pathindex` field, whose signedness the source comments call out. -/
def beSigned16 (l : Bytes) : Int :=
  let v := beUnpack (l.take 2)
  if v < 0x8000 then (v : Int) else (v : Int) - 0x10000

/-- Python `bytes.strip(b"\x00")`: drop leading and trailing NUL bytes. -/
def pyStripNul (l : Bytes) : Bytes :=
  ((l.dropWhile (fun b => b = 0)).reverse.dropWhile (fun b => b = 0)).reverse

/-- Python list indexing `l[i]` with an `int` index: a nonnegative index is
looked up directly, a negative index counts from the end of the list, and an
index out of range on either side raises `IndexError` (modelled as `none`). -/
def pyIndex {α : Type} (l : List α) (i : Int) : Option α :=
  if 0 ≤ i then l.get? i.toNat
  else if 0 ≤ (l.length : Int) + i then l.get? ((l.length : Int) + i).toNat
  else none

/-- `STFS.fix_blocknum`: translate a logical data-block number to the
physical block number on disk.  Translated from the source:

  block_adjust = 0
  if block_num >= 0xAA:
      block_adjust += ((block_num // 0xAA)) + 1 << self.table_size_shift
  if block_num >= 0x70E4:
      block_adjust += ((block_num // 0x70E4) + 1) << self.table_size_shift
  return block_adjust + block_num

In Python, `+` binds tighter than `<<`, so the first increment is
`((block_num // 0xAA) + 1) << shift`.  Note the function adds only these
two periodic terms; no term is conditioned on 0x4AF768. -/
def fix_blocknum (shift : Nat) (block_num : Nat) : Nat :=
  let block_adjust := 0
  let block_adjust :=
    if 0xAA ≤ block_num then block_adjust + ((block_num / 0xAA + 1) <<< shift)
    else block_adjust
  let block_adjust :=
    if 0x70E4 ≤ block_num then block_adjust + ((block_num / 0x70E4 + 1) <<< shift)
    else block_adjust
  block_adjust + block_num

/-- `fix_blocknum` written as an explicit two-term sum. -/
theorem fix_blocknum_eq (shift block_num : Nat) :
    fix_blocknum shift block_num =
      (if 0xAA ≤ block_num then (block_num / 0xAA + 1) <<< shift else 0)
      + (if 0x70E4 ≤ block_num then (block_num / 0x70E4 + 1) <<< shift else 0)
      + block_num := by
  unfold fix_blocknum
  split_ifs <;> ring

set_option maxRecDepth 4096 in
/-- C1: fails on the code.  For `block_num = 0x4AF768` (and table_size_shift
0) the value of `fix_blocknum` is the input plus exactly the two periodic
terms `(block_num / 0xAA + 1)` and `(block_num / 0x70E4 + 1)`; contrary to
the claim (and to the function's own docstring, which says the level-2 table
after 0x4AF768 blocks skews block-to-offset calculations), no additional
level-2 adjustment term is added at or beyond 0x4AF768. -/
theorem fix_blocknum_no_level2_term :
    fix_blocknum 0 0x4AF768 =
      0x4AF768 + (0x4AF768 / 0xAA + 1) + (0x4AF768 / 0x70E4 + 1) := by
  rw [fix_blocknum_eq]
  norm_num

set_option maxRecDepth 40000 in
/-- C4: with `table_size_shift = 0`, every logical block below 0xAA maps to
itself, and logical block 0xAA maps to physical block 0xAC. -/
theorem fix_blocknum_shift0_low :
    (∀ b, b < 0xAA → fix_blocknum 0 b = b) ∧ fix_blocknum 0 0xAA = 0xAC := by
  decide

/-- Witness for `fix_blocknum_shift0_low` at the concrete block 0x55. -/
theorem fix_blocknum_shift0_low_witness : fix_blocknum 0 0x55 = 0x55 :=
  fix_blocknum_shift0_low.1 0x55 (by decide)

/-- Shifting left preserves `≤` in the shifted value. -/
theorem shiftLeft_le_shiftLeft (x y s : Nat) (h : x ≤ y) : x <<< s ≤ y <<< s := by
  simpa [Nat.shiftLeft_eq] using Nat.mul_le_mul_right (2 ^ s) h

/-- Each periodic term of `fix_blocknum` is monotone in the block number. -/
theorem ifterm_mono (k s n : Nat) :
    (if k ≤ n then (n / k + 1) <<< s else 0)
      ≤ (if k ≤ n + 1 then ((n + 1) / k + 1) <<< s else 0) := by
  split_ifs with h1 h2 h2
  · exact shiftLeft_le_shiftLeft _ _ _
      (Nat.add_le_add_right (Nat.div_le_div_right (Nat.le_succ n)) 1)
  · omega
  · exact Nat.zero_le _
  · exact Nat.le_refl 0

/-- C5: for `table_size_shift` 0 or 1, `fix_blocknum` is strictly increasing
in the logical block number (the two-term adjustment is non-decreasing). -/
theorem fix_blocknum_strictMono (s : Nat) (hs : s ≤ 1) :
    StrictMono (fix_blocknum s) := by
  apply strictMono_nat_of_lt_succ
  intro n
  rw [fix_blocknum_eq, fix_blocknum_eq]
  have hA := ifterm_mono 0xAA s n
  have hB := ifterm_mono 0x70E4 s n
  exact lt_of_le_of_lt (Nat.add_le_add_right (Nat.add_le_add hA hB) n)
    (Nat.add_lt_add_left (Nat.lt_succ_self n) _)

/-- Witness for `fix_blocknum_strictMono` at shift 1, blocks 3 < 4. -/
theorem fix_blocknum_strictMono_witness : fix_blocknum 1 3 < fix_blocknum 1 4 :=
  fix_blocknum_strictMono 1 (by decide) (by decide : (3 : Nat) < 4)

/-- Status byte values recognised in `STFSHashInfo.types`
(Unused, Freed, Old, Current). -/
def hashInfoTypes : List Nat := [0x00, 0x40, 0x80, 0xC0]

/-- `BlockHashRecord`: the parsed 0x18-byte hash record of one block. -/
structure BlockHashRecord where
  record : Nat
  table : Int
  blocknum : Nat
  hash : Bytes
  info : Nat
  nextblock : Nat
  deriving DecidableEq, Repr

/-- `BlockHashRecord.__init__`: asserts that the slice is exactly 0x18 bytes,
takes the 0x14-byte digest, the status byte, and the 3-byte big-endian
next-block pointer (unpacked as `">I"` with a zero byte prepended), and
asserts that the status byte is one of the four known values. -/
def mkBlockHashRecord (blocknum : Nat) (data : Bytes) (table : Int)
    (record : Nat) : Except PyErr BlockHashRecord :=
  if data.length ≠ 0x18 then
    .error (.assertionError "BlockHashRecord data of an incorrect length")
  else
    let hash := data.take 0x14
    let info := data.getD 0x14 0
    let nextblock := beUnpack (0 :: pySlice data 0x15 3)
    if info ∈ hashInfoTypes then
      .ok ⟨record, table, blocknum, hash, info, nextblock⟩
    else .error (.assertionError "BlockHashRecord type is unknown")

/-- `FileListing`: one parsed 0x40-byte directory record. -/
structure FileListing where
  filename : Bytes
  isdirectory : Bool
  numblocks : Nat
  firstblock : Nat
  pathindex : Int
  size : Nat
  udate : Nat
  utime : Nat
  adate : Nat
  atime : Nat
  deriving DecidableEq, Repr

/-- Python 3 comparison of a `bytes` value with a `str` value: values of
different types are never equal, so `bytes == str` is always `False`.  The
source's `assert self.filename != ""` compares the `bytes` filename with the
empty `str`, so the assert condition is always `True` and the assert can
never fire -- including on a filename that is empty after NUL-stripping. -/
def pyBytesEqStr (_b : Bytes) (_s : String) : Bool := false

/-- `FileListing.__init__` on one 0x40-byte slice.  The filename is the first
0x28 bytes with NUL padding stripped; the (ineffective, see `pyBytesEqStr`)
empty-name assert follows; the remaining fields are fixed-offset unpacks
(`numblocks` and `firstblock` are 3-byte little-endian, `pathindex` is a
signed big-endian 16-bit value).  A slice shorter than 0x40 bytes would make
one of the `struct.unpack` calls raise `struct.error` (not an
`AssertionError`), modelled as `structError`. -/
def mkFileListing (data : Bytes) : Except PyErr FileListing :=
  let filename := pyStripNul (data.take 0x28)
  if pyBytesEqStr filename "" then
    .error (.assertionError "FileListing has empty filename")
  else if data.length < 0x40 then .error .structError
  else
    .ok { filename := filename
          isdirectory := decide (0x80 &&& data.getD 0x28 0 = 0x80)
          numblocks := leUnpack (pySlice data 0x29 3)
          firstblock := leUnpack (pySlice data 0x2F 3)
          pathindex := beSigned16 (pySlice data 0x32 2)
          size := beUnpack (pySlice data 0x34 4)
          udate := beUnpack (pySlice data 0x38 2)
          utime := beUnpack (pySlice data 0x3A 2)
          adate := beUnpack (pySlice data 0x3C 2)
          atime := beUnpack (pySlice data 0x3E 2) }

/-- Structural helper for `chunks40`: the bound is the list length. -/
def chunksAux : Nat → Bytes → List Bytes
  | 0, _ => []
  | _, [] => []
  | n + 1, data => data.take 0x40 :: chunksAux n (data.drop 0x40)

/-- The slices `data[x : x + 0x40]` for `x in range(0, len(data), 0x40)`,
as produced by the record loop of `parse_filetable`. -/
def chunks40 (data : Bytes) : List Bytes :=
  chunksAux data.length data

/-- The first loop of `parse_filetable`: parse each 0x40-byte slice as a
`FileListing`, dropping slices whose constructor raises `AssertionError`
(`except AssertionError: pass`); any other exception propagates. -/
def parseRecordsAux : List Bytes → List FileListing → Except PyErr (List FileListing)
  | [], acc => .ok acc
  | s :: rest, acc =>
    match mkFileListing s with
    | .ok fl => parseRecordsAux rest (acc ++ [fl])
    | .error (.assertionError _) => parseRecordsAux rest acc
    | .error e => .error e

/-- The record-parsing stage of `parse_filetable` on the raw file-table
bytes. -/
def parse_records (data : Bytes) : Except PyErr (List FileListing) :=
  parseRecordsAux (chunks40 data) []

/-- One record's `pathindex` back-reference walk (the `while` loop of
`parse_filetable`), with an explicit iteration bound `fuel`.  `none` means
the loop is still running after `fuel` iterations (the source loop has no
bound of its own); `some (.ok comps)` is normal loop exit with the collected
name components; `some (.error e)` is the re-raised `AssertionError` from a
Python `IndexError` (negative index below `-len`).  Python list indexing
semantics are in `pyIndex`. -/
def walkAux (fls : List FileListing) : FileListing → List Bytes → Nat →
    Option (Except PyErr (List Bytes))
  | _, _, 0 => none
  | a, comps, fuel + 1 =>
    if a.pathindex ≠ -1 ∧ a.pathindex < (fls.length : Int) then
      match pyIndex fls a.pathindex with
      | some a2 => walkAux fls a2 (comps ++ [a2.filename]) fuel
      | none => some (.error (.indexAssertion a.pathindex fls.length))
    else some (.ok comps)

/-- After the walk, `parse_filetable` appends an empty component, reverses,
and joins with a slash (the source decodes each component as UTF-8; paths
are kept at the byte level here, 0x2F is the slash byte). -/
def resolve_path (fls : List FileListing) (fl : FileListing) (fuel : Nat) :
    Option (Except PyErr Bytes) :=
  match walkAux fls fl [fl.filename] fuel with
  | none => none
  | some (.error e) => some (.error e)
  | some (.ok comps) =>
      some (.ok (List.intercalate [0x2F] ((comps ++ [([] : Bytes)]).reverse)))

/-- Python dict assignment `d[k] = v`: replace the value of an existing key,
else append the new binding. -/
def dictInsert (d : List (Bytes × FileListing)) (k : Bytes) (v : FileListing) :
    List (Bytes × FileListing) :=
  if d.any (fun p => p.1 == k) then
    d.map (fun p => if p.1 == k then (k, v) else p)
  else d ++ [(k, v)]

/-- The second loop of `parse_filetable`: resolve every record's path and
build the `allfiles` mapping. -/
def buildAllfilesAux (fls : List FileListing) :
    List FileListing → List (Bytes × FileListing) → Nat →
    Option (Except PyErr (List (Bytes × FileListing)))
  | [], acc, _ => some (.ok acc)
  | fl :: rest, acc, fuel =>
    match resolve_path fls fl fuel with
    | none => none
    | some (.error e) => some (.error e)
    | some (.ok path) => buildAllfilesAux fls rest (dictInsert acc path fl) fuel

/-- The path-to-record mapping built by `parse_filetable` from the parsed
record list. -/
def parse_filetable_map (fls : List FileListing) (fuel : Nat) :
    Option (Except PyErr (List (Bytes × FileListing))) :=
  buildAllfilesAux fls fls [] fuel

deriving instance DecidableEq for Except

/-- C3 evidence: fails on the code.  A file table consisting of one all-zero
0x40-byte slice (trailing directory padding) is parsed into one `FileListing`
whose filename is empty: the empty-name guard never fires (see
`pyBytesEqStr`), so the padding slice is kept, and the number of parsed
entries is the number of slices, not the number of slices with a non-empty
name. -/
theorem parse_records_keeps_empty_name :
    parse_records (List.replicate 0x40 0) =
      .ok [⟨[], false, 0, 0, 0, 0, 0, 0, 0, 0⟩] := by
  decide

/-- C2 counterexample: a one-record table whose single record has
`pathindex = 5` (well beyond the record count 1) builds the path map
silently: the walk's guard `a.pathindex < len(filelistings)` is false, so
the loop exits without touching the record list and the record is filed
under the root path, with no consistency error. -/
theorem parse_filetable_oob_completes_silently :
    parse_filetable_map [⟨[0x61], false, 0, 0, 5, 0, 0, 0, 0, 0⟩] 3 =
      some (.ok [([0x2F, 0x61], ⟨[0x61], false, 0, 0, 5, 0, 0, 0, 0, 0⟩)]) := by
  decide

/-- C2 as amended: a `pathindex` at or above the record count silently
terminates the walk (the record is treated as a root), while the
consistency error -- reporting the offending index and the record count --
is raised only for a negative `pathindex` (other than -1) below minus the
record count, where Python list indexing itself raises `IndexError`. -/
theorem walk_oob_index_spec (fls : List FileListing) (a : FileListing)
    (comps : List Bytes) (fuel : Nat) :
    ((fls.length : Int) ≤ a.pathindex →
        walkAux fls a comps (fuel + 1) = some (.ok comps))
    ∧ (a.pathindex ≠ -1 → a.pathindex < -(fls.length : Int) →
        walkAux fls a comps (fuel + 1) =
          some (.error (.indexAssertion a.pathindex fls.length))) := by
  constructor
  · intro h
    simp only [walkAux]
    rw [if_neg]
    intro hc
    omega
  · intro h1 h2
    simp only [walkAux]
    rw [if_pos ⟨h1, by omega⟩]
    have hnone : pyIndex fls a.pathindex = none := by
      simp only [pyIndex]
      rw [if_neg (by omega), if_neg (by omega)]
    rw [hnone]

/-- Witness for `walk_oob_index_spec`: a record with `pathindex = 7` in a
one-record list exits the walk silently with its own name as the only
component. -/
theorem walk_oob_index_spec_witness :
    walkAux [⟨[0x65], false, 0, 0, 7, 0, 0, 0, 0, 0⟩]
      ⟨[0x65], false, 0, 0, 7, 0, 0, 0, 0, 0⟩ [[0x65]] 2 = some (.ok [[0x65]]) :=
  (walk_oob_index_spec [⟨[0x65], false, 0, 0, 7, 0, 0, 0, 0, 0⟩]
    ⟨[0x65], false, 0, 0, 7, 0, 0, 0, 0, 0⟩ [[0x65]] 1).1 (by decide)

/-- C6 counterexample: a one-record table whose record has `pathindex = 0`
(a self-referential chain) leaves the path walk still running after 50
iterations -- far beyond the record count 1 -- with neither termination nor
a consistency error, so the walk is not bounded by the record count. -/
theorem parse_filetable_cycle_not_bounded :
    parse_filetable_map [⟨[0x63], false, 0, 0, 0, 0, 0, 0, 0, 0⟩] 50 = none := by
  decide

/-- C6 as amended: the path walk has no maximum-depth guard.  Whenever a
record's `pathindex` passes the loop guard and resolves (by Python list
indexing) back to the record itself, the walk runs forever: for every
iteration bound it has neither terminated nor raised an error. -/
theorem walk_self_loop_diverges (fls : List FileListing) (a : FileListing)
    (h1 : a.pathindex ≠ -1) (h2 : a.pathindex < (fls.length : Int))
    (h3 : pyIndex fls a.pathindex = some a) :
    ∀ comps fuel, walkAux fls a comps fuel = none := by
  intro comps fuel
  induction fuel generalizing comps with
  | zero => rfl
  | succ n ih =>
    simp only [walkAux]
    rw [if_pos ⟨h1, h2⟩, h3]
    exact ih _

/-- Witness for `walk_self_loop_diverges` on the concrete self-loop record. -/
theorem walk_self_loop_diverges_witness :
    walkAux [⟨[0x63], false, 0, 0, 0, 0, 0, 0, 0, 0⟩]
      ⟨[0x63], false, 0, 0, 0, 0, 0, 0, 0, 0⟩ [[0x63]] 9 = none :=
  walk_self_loop_diverges [⟨[0x63], false, 0, 0, 0, 0, 0, 0, 0, 0⟩]
    ⟨[0x63], false, 0, 0, 0, 0, 0, 0, 0, 0⟩ (by decide) (by decide) (by decide)
    [[0x63]] 9

/-- C10 counterexample: a one-record table whose record has `pathindex = -2`
makes the walk raise the consistency error (the Python `IndexError` is
re-raised as an `AssertionError` reporting index -2 and count 1), refuting
the claim that a negative `pathindex` other than -1 never stops the walk or
raises. -/
theorem parse_filetable_neg_oob_raises :
    parse_filetable_map [⟨[0x64], false, 0, 0, -2, 0, 0, 0, 0, 0⟩] 4 =
      some (.error (.indexAssertion (-2) 1)) := by
  decide

/-- C10 as amended: a record whose `pathindex` is a negative value other
than -1 continues the walk at the record located at that index counted from
the end of the record list (Python negative-index wraparound), appending
that record's name to the path components, provided the index is within
range (`pathindex ≥ -count`); below that range the walk instead raises the
consistency error (see `walk_oob_index_spec`). -/
theorem walk_negative_wraparound (fls : List FileListing) (a a2 : FileListing)
    (comps : List Bytes) (fuel : Nat)
    (h1 : a.pathindex ≤ -2) (h2 : -(fls.length : Int) ≤ a.pathindex)
    (h3 : fls.get? ((fls.length : Int) + a.pathindex).toNat = some a2) :
    walkAux fls a comps (fuel + 1) =
      walkAux fls a2 (comps ++ [a2.filename]) fuel := by
  simp only [walkAux]
  rw [if_pos ⟨by omega, by omega⟩]
  have hidx : pyIndex fls a.pathindex = some a2 := by
    simp only [pyIndex]
    rw [if_neg (by omega), if_pos (by omega)]
    exact h3
  rw [hidx]

/-- Witness for `walk_negative_wraparound`: in a two-record list, the second
record's `pathindex = -2` steps the walk to the first record (index
2 + (-2) = 0) and appends its name. -/
theorem walk_negative_wraparound_witness :
    walkAux [⟨[0x61], true, 0, 0, -1, 0, 0, 0, 0, 0⟩,
             ⟨[0x62], false, 0, 0, -2, 0, 0, 0, 0, 0⟩]
      ⟨[0x62], false, 0, 0, -2, 0, 0, 0, 0, 0⟩ [[0x62]] 4 =
    walkAux [⟨[0x61], true, 0, 0, -1, 0, 0, 0, 0, 0⟩,
             ⟨[0x62], false, 0, 0, -2, 0, 0, 0, 0, 0⟩]
      ⟨[0x61], true, 0, 0, -1, 0, 0, 0, 0, 0⟩ [[0x62], [0x61]] 3 :=
  walk_negative_wraparound _ _ ⟨[0x61], true, 0, 0, -1, 0, 0, 0, 0, 0⟩
    [[0x62]] 3 (by decide) (by decide) (by decide)

/-- `STFS.table_spacing`: the distance in blocks between hash tables, for
1-block and for 2-block tables. -/
def table_spacing : List (Nat × Nat × Nat) :=
  [(0xAB, 0x718F, 0xFE7DA), (0xAC, 0x723A, 0xFD00B)]

/-- `STFS.read_block`: seek to `0xC000 + blocknum * 0x1000` and read
`length` bytes of the underlying byte source.  `blocknum` can be a small
negative table-block number (never below -2 at any call site, so the byte
offset stays nonnegative and the `Int.toNat` clamp is never exercised). -/
def read_block (data : Bytes) (blocknum : Int) (length : Nat) : Bytes :=
  pySlice data (0xC000 + blocknum * 0x1000).toNat length

/-- The decoded container header.  Only the fields consumed by the claims
are kept; the remaining fields of `parse_header` are further fixed-offset
slices and unpacks of the same buffer with no influence on these claims.
(The source's `if self.magic == "CON ":` branches compare `bytes` with
`str`, which is always unequal in Python 3, so the else branches run; the
fields they set are among those not needed here.) -/
structure STFSHeader where
  magic : Bytes
  entry_id : Nat
  content_type : Nat
  metadata_version : Nat
  content_size : Nat
  filetable_blockcount : Nat
  filetable_blocknumber : Nat
  allocated_count : Nat
  unallocated_count : Nat
  table_size_shift : Nat
  deriving DecidableEq, Repr

/-- `STFS.parse_header`: asserts the buffer holds at least 0x971A bytes,
then extracts fixed-offset fields.  `filetable_blockcount` (offset
0x37A + 2, `"<H"`) and `filetable_blocknumber` (offset 0x37A + 4, 3 bytes
`"<I"` zero-padded) are little-endian; `allocated_count` is at
0x37A + 0x1B = 0x395.  `table_size_shift` is 0 exactly when
`((entry_id + 0xFFF) & 0xF000) >> 0xC == 0xB`. -/
def parse_header (data : Bytes) : Except PyErr STFSHeader :=
  if data.length < 0x971A then .error (.assertionError "STFS Data Too Short")
  else
    let entry_id := beUnpack (pySlice data 0x340 4)
    .ok { magic := data.take 4
          entry_id := entry_id
          content_type := beUnpack (pySlice data 0x344 4)
          metadata_version := beUnpack (pySlice data 0x348 4)
          content_size := beUnpack (pySlice data 0x34C 8)
          filetable_blockcount := leUnpack (pySlice data 0x37C 2)
          filetable_blocknumber := leUnpack (pySlice data 0x37E 3)
          allocated_count := beUnpack (pySlice data 0x395 4)
          unallocated_count := beUnpack (pySlice data 0x399 4)
          table_size_shift :=
            if ((entry_id + 0xFFF) &&& 0xF000) >>> 0xC = 0xB then 0 else 1 }

/-- `STFS.get_blockhash`: locate and parse the hash record of a block.  The
record slot is `blocknum % 0xAA`; the table block number combines the
per-0xAA spacing with the level-1 and level-2 skips, then is offset by
`table_offset - (1 << shift)` to point at the first table (this is where a
table number can go slightly negative).  `shift` is always 0 or 1 (set by
`parse_header`), so the `table_spacing` lookup never falls off the list. -/
def get_blockhash (data : Bytes) (shift : Nat) (blocknum : Nat)
    (table_offset : Nat) : Except PyErr BlockHashRecord :=
  let record := blocknum % 0xAA
  let spacing := (table_spacing.getD shift (0xAB, 0x718F, 0xFE7DA)).1
  let tablenum := blocknum / 0xAA * spacing
  let tablenum :=
    if 0xAA ≤ blocknum then
      let t := tablenum + ((blocknum / 0x70E4 + 1) <<< shift)
      if 0x70E4 ≤ blocknum then t + (1 <<< shift) else t
    else tablenum
  let tablenumI : Int := (tablenum : Int) + table_offset - (1 <<< shift)
  let hashdata := read_block data tablenumI 0x1000
  mkBlockHashRecord blocknum (pySlice hashdata (record * 0x18) 0x18)
    tablenumI record

/-- The retry pattern shared by `read_filetable` and `read_file`: if there
are two hash tables (`shift > 0`) and the primary record's status is below
0x80, consult the secondary table instead. -/
def get_blockhash_retry (data : Bytes) (shift : Nat) (blocknum : Nat) :
    Except PyErr BlockHashRecord :=
  match get_blockhash data shift blocknum 0 with
  | .error e => .error e
  | .ok bh =>
    if 0 < shift ∧ bh.info < 0x80 then get_blockhash data shift blocknum 1
    else .ok bh

/-- The `for` loop of `STFS.read_filetable`: exactly `numblocks` iterations,
each appending one 0x1000-byte physical block and following `nextblock`.
(The source's local `info` variable is assigned but never read, so it is
not carried.) -/
def read_filetable_aux (data : Bytes) (shift : Nat) :
    Nat → Nat → Bytes → Except PyErr Bytes
  | 0, _, buf => .ok buf
  | n + 1, block, buf =>
    let buf2 := buf ++ read_block data (fix_blocknum shift block : Int) 0x1000
    match get_blockhash_retry data shift block with
    | .error e => .error e
    | .ok bh => read_filetable_aux data shift n bh.nextblock buf2

/-- `STFS.read_filetable`: collect the raw file-table bytes starting at
`firstblock` for `numblocks` blocks. -/
def read_filetable (data : Bytes) (shift firstblock numblocks : Nat) :
    Except PyErr Bytes :=
  read_filetable_aux data shift numblocks firstblock []

/-- `STFS.parse_filetable` end to end: read the file-table bytes, parse the
0x40-byte records (dropping the slices whose constructor raises
`AssertionError`), and build the path map by walking `pathindex`
back-references. -/
def parse_filetable (data : Bytes) (hdr : STFSHeader) (fuel : Nat) :
    Option (Except PyErr (List FileListing × List (Bytes × FileListing))) :=
  match read_filetable data hdr.table_size_shift hdr.filetable_blocknumber
      hdr.filetable_blockcount with
  | .error e => some (.error e)
  | .ok ft =>
    match parse_records ft with
    | .error e => some (.error e)
    | .ok fls =>
      match parse_filetable_map fls fuel with
      | none => none
      | some (.error e) => some (.error e)
      | some (.ok m) => some (.ok (fls, m))

/-- A fully opened container: the byte source, the decoded header, and the
file table produced by `parse_filetable`. -/
structure STFSState where
  data : Bytes
  header : STFSHeader
  filelistings : List FileListing
  allfiles : List (Bytes × FileListing)
  deriving DecidableEq, Repr

/-- The magic tag `b"CON "`. -/
def magicCON : Bytes := [0x43, 0x4F, 0x4E, 0x20]

/-- The magic tag `b"PIRS"`. -/
def magicPIRS : Bytes := [0x50, 0x49, 0x52, 0x53]

/-- The magic tag `b"LIVE"`. -/
def magicLIVE : Bytes := [0x4C, 0x49, 0x56, 0x45]

/-- `STFS.__init__` on a byte source: read the first 4 bytes and assert they
are one of the three magic tags, then re-read the 0x971A-byte header, parse
it, and eagerly parse the file table.  `fuel` bounds the otherwise unbounded
path walk inside `parse_filetable` (see `walkAux`); `none` means that walk
is still running. -/
def stfs_init (data : Bytes) (fuel : Nat) : Option (Except PyErr STFSState) :=
  if data.take 4 = magicCON ∨ data.take 4 = magicPIRS ∨ data.take 4 = magicLIVE then
    match parse_header (pySlice data 0 0x971A) with
    | .error e => some (.error e)
    | .ok hdr =>
      match parse_filetable data hdr fuel with
      | none => none
      | some (.error e) => some (.error e)
      | some (.ok (fls, m)) => some (.ok ⟨data, hdr, fls, m⟩)
  else some (.error (.assertionError "STFS Magic not found"))

/-- C7: opening a byte source whose first 4 bytes are none of the three
magic tags fails immediately with the magic assertion error: neither the
header nor the file table is ever parsed and no file tree is built (the
result carries no `STFSState`). -/
theorem stfs_init_bad_magic (data : Bytes) (fuel : Nat)
    (h1 : data.take 4 ≠ magicCON) (h2 : data.take 4 ≠ magicPIRS)
    (h3 : data.take 4 ≠ magicLIVE) :
    stfs_init data fuel =
      some (.error (.assertionError "STFS Magic not found")) := by
  unfold stfs_init
  rw [if_neg]
  rintro (h | h | h)
  exacts [h1 h, h2 h, h3 h]

/-- Witness for `stfs_init_bad_magic` on a buffer starting with "XBOX". -/
theorem stfs_init_bad_magic_witness :
    stfs_init [0x58, 0x42, 0x4F, 0x58] 1 =
      some (.error (.assertionError "STFS Magic not found")) :=
  stfs_init_bad_magic [0x58, 0x42, 0x4F, 0x58] 1 (by decide) (by decide)
    (by decide)

/-- The `while` loop of `STFS.read_file`: continues while
`size > 0 and block > 0 and block < self.allocated_count and info >= 0x80`;
each iteration reads `min(0x1000, size)` bytes of the translated physical
block, fetches the current block's hash record (with the secondary-table
retry), and advances to `nextblock`.  Terminates because `size` strictly
decreases. -/
def read_file_loop (data : Bytes) (shift alloc : Nat) (size block info : Nat)
    (buf : Bytes) : Except PyErr Bytes :=
  if h : 0 < size ∧ 0 < block ∧ block < alloc ∧ 0x80 ≤ info then
    let readlen := min 0x1000 size
    let buf2 := buf ++ read_block data (fix_blocknum shift block : Int) readlen
    match get_blockhash_retry data shift block with
    | .error e => .error e
    | .ok bh =>
        read_file_loop data shift alloc (size - readlen) bh.nextblock bh.info buf2
  else .ok buf
termination_by size
decreasing_by omega

/-- `STFS.read_file` with the default `size=-1` argument: the requested size
becomes the record's `size` field, the chain starts at the record's
`firstblock`, and the status seed is 0x80. -/
def read_file (data : Bytes) (shift alloc : Nat) (fl : FileListing) :
    Except PyErr Bytes :=
  read_file_loop data shift alloc fl.size fl.firstblock 0x80 []

/-- C8: the chain-following loop of `read_file` continues exactly while the
remaining size is positive, the block number is strictly between 0 and the
allocated count, and the last status is at least 0x80: when any of the four
conditions fails the loop returns the bytes collected so far (`.ok`, no
exception, possibly short of the requested size), and while they all hold
it performs exactly the read/hash/advance step. -/
theorem read_file_loop_guard_spec (data : Bytes)
    (shift alloc size block info : Nat) (buf : Bytes) :
    (¬(0 < size ∧ 0 < block ∧ block < alloc ∧ 0x80 ≤ info) →
        read_file_loop data shift alloc size block info buf = .ok buf)
    ∧ ((0 < size ∧ 0 < block ∧ block < alloc ∧ 0x80 ≤ info) →
        read_file_loop data shift alloc size block info buf =
          match get_blockhash_retry data shift block with
          | .error e => .error e
          | .ok bh =>
              read_file_loop data shift alloc (size - min 0x1000 size)
                bh.nextblock bh.info
                (buf ++ read_block data (fix_blocknum shift block : Int)
                  (min 0x1000 size))) := by
  constructor
  · intro h
    rw [read_file_loop]
    simp only [dif_neg h]
  · intro h
    rw [read_file_loop]
    simp only [dif_pos h]

/-- Witness for `read_file_loop_guard_spec`: with the remaining size already
0 the loop stops at once and hands back the collected buffer. -/
theorem read_file_loop_guard_spec_witness :
    read_file_loop [] 0 5 0 3 0x80 [0x7A] = .ok [0x7A] :=
  (read_file_loop_guard_spec [] 0 5 0 3 0x80 [0x7A]).1 (by decide)

/-- C9: a record whose `firstblock` is 0 or at least the allocated block
count makes `read_file` return the empty byte string even when the record's
`size` is positive: the block-validity guard applies to the first block of
the chain as well. -/
theorem read_file_invalid_firstblock (data : Bytes) (shift alloc : Nat)
    (fl : FileListing) (h : fl.firstblock = 0 ∨ alloc ≤ fl.firstblock) :
    read_file data shift alloc fl = .ok [] := by
  unfold read_file
  rw [read_file_loop]
  rw [dif_neg]
  rintro ⟨hs, hb, hlt, hi⟩
  rcases h with h | h <;> omega

/-- Witness for `read_file_invalid_firstblock`: a record of size 5 whose
chain starts at block 0 reads back as empty. -/
theorem read_file_invalid_firstblock_witness :
    read_file [] 0 100 ⟨[0x66], false, 1, 0, -1, 5, 0, 0, 0, 0⟩ = .ok [] :=
  read_file_invalid_firstblock [] 0 100
    ⟨[0x66], false, 1, 0, -1, 5, 0, 0, 0, 0⟩ (Or.inl rfl)
